import Mathlib

/-!
Verification of the abipy excerpt: `abipy/tools/iotools.py` and the
task-manager / autoparal behaviour exercised by
`abipy/flowtk/tests/test_tasks.py`.

The interactive helpers of `iotools.py` are embedded by making their
external effects explicit: user input becomes a list of input events
(a typed line, an end-of-file, a keyboard interrupt), the external
editor process becomes an oracle mapping (editor name, file name) to an
exit code, and printing becomes a recorded list of warning messages.
-/

/-! ## `abipy.tools.iotools.ask_yes_no` -/

/-- One interaction with `get_input`: either the user types a line, or the
read raises `EOFError`, or it raises `KeyboardInterrupt`. -/
inductive InEvent where
  | line (s : String)
  | eof
  | kbint
deriving DecidableEq, Repr

/-- Outcome of running `ask_yes_no` on a finite list of input events:
it returns a boolean, raises (re-raising `EOFError`), or is still looping
waiting for more input when the event list is exhausted. -/
inductive AskResult where
  | ret (b : Bool)
  | raised
  | pending
deriving DecidableEq, Repr

/-- Python's `str.lower()` (ASCII-faithful, agreeing with
`String.toLower`), written by structural recursion over the character
list so that concrete instances evaluate. -/
def lowerStr (s : String) : String :=
  String.mk (s.data.map Char.toLower)

/-- Python's `str.strip()`: drop whitespace from both ends, written by
structural recursion over the character list. -/
def trimStr (s : String) : String :=
  String.mk
    (((s.data.dropWhile Char.isWhitespace).reverse.dropWhile
        Char.isWhitespace).reverse)

/-- The `answers` dictionary of `ask_yes_no`:
`{'y': True, 'n': False, 'yes': True, 'no': False}`, as a lookup. -/
def answersLookup (s : String) : Option Bool :=
  if s = "y" then some true
  else if s = "yes" then some true
  else if s = "n" then some false
  else if s = "no" then some false
  else none

/-- Whether `default in answers.keys()` holds (a `None` default is never a
key of the answers dictionary). -/
def defaultRecognized : Option String → Bool
  | none => false
  | some d => (answersLookup d).isSome

/-- `abipy.tools.iotools.ask_yes_no`, one recursive step per loop
iteration.  A typed line is lowercased; an empty line is replaced by the
default; an answer found in the dictionary returns, otherwise the loop
re-prompts.  `KeyboardInterrupt` is swallowed (`pass`).  `EOFError`
returns the default answer when the default is a key of the answers
dictionary and re-raises otherwise. -/
def ask_yes_no (default : Option String) : List InEvent → AskResult
  | [] => AskResult.pending
  | InEvent.line s :: rest =>
      let typed := lowerStr s
      let ans : Option String := if typed = "" then default else some typed
      match ans with
      | none => ask_yes_no default rest
      | some a =>
        match answersLookup a with
        | some b => AskResult.ret b
        | none => ask_yes_no default rest
  | InEvent.kbint :: rest => ask_yes_no default rest
  | InEvent.eof :: _ =>
      match default with
      | some d =>
        match answersLookup d with
        | some b => AskResult.ret b
        | none => AskResult.raised
      | none => AskResult.raised

/-! ## `abipy.tools.iotools.Editor` -/

/-- `abipy.tools.iotools.Editor`: it only stores the editor name. -/
structure Editor where
  editor : String
deriving DecidableEq, Repr

/-- `Editor.DEFAULT_EDITOR = "vi"`. -/
def Editor.DEFAULT_EDITOR : String := "vi"

/-- `Editor.__init__`: with `editor=None` the name comes from
`os.getenv("EDITOR", DEFAULT_EDITOR)` (modelled by the explicit
`envEDITOR` argument), otherwise the given name is used. -/
def Editor.init (editor : Option String) (envEDITOR : Option String) : Editor :=
  match editor with
  | none => { editor := envEDITOR.getD Editor.DEFAULT_EDITOR }
  | some e => { editor := e }

/-- Result of `Editor.edit_file`: the returned exit code together with the
warning lines printed by `cprint`. -/
structure EditFileResult where
  retcode : Int
  warnings : List String
deriving DecidableEq, Repr

/-- `Editor.edit_file`: run `call([self.editor, fname])` (modelled by the
oracle `callRet`, mapping the argv pair to the process exit status), print
a red warning when the exit status is non-zero, and return the status. -/
def Editor.edit_file (callRet : String → String → Int) (ed : Editor)
    (fname : String) : EditFileResult :=
  let retcode := callRet ed.editor fname
  { retcode := retcode
    warnings :=
      if retcode ≠ 0 then
        ["Retcode " ++ toString retcode ++ " while editing file: " ++ fname]
      else [] }

/-- `abipy.tools.iotools._user_wants_to_exit`: reads one answer from
`get_input` (`none` models `EOFError`, which yields `True`); a typed
answer means "exit" exactly when it lowercases and strips to `n` or
`no`. -/
def _user_wants_to_exit : Option String → Bool
  | none => true
  | some answer => trimStr (lowerStr answer) = "n" ∨ trimStr (lowerStr answer) = "no"

/-- `Editor.edit_files`, with the continue-prompt answers given as a
stream `answers : Nat → Option String` indexed by how many prompts have
happened so far (`none` models `EOFError` at that prompt).  Returns the
exit status together with the list of files the editor was invoked on, in
order.  The prompt is only consulted when `ask_for_exit` holds and the
current file is not the last one, mirroring the short-circuit in
`if ask_for_exit and idx != len(fnames) - 1 and _user_wants_to_exit()`. -/
def Editor.edit_files_go (callRet : String → String → Int) (ed : Editor)
    (ask_for_exit : Bool) (answers : Nat → Option String) :
    Nat → List String → Int × List String
  | _, [] => (0, [])
  | k, fname :: rest =>
      let exit_status := (ed.edit_file callRet fname).retcode
      if exit_status ≠ 0 then (exit_status, [fname])
      else if ask_for_exit ∧ rest ≠ [] then
        if _user_wants_to_exit (answers k) then (0, [fname])
        else
          let r := Editor.edit_files_go callRet ed ask_for_exit answers (k + 1) rest
          (r.1, fname :: r.2)
      else
        let r := Editor.edit_files_go callRet ed ask_for_exit answers k rest
        (r.1, fname :: r.2)

/-- `Editor.edit_files` on a list of file names (for a list argument,
`list_strings` is the identity). -/
def Editor.edit_files (callRet : String → String → Int) (ed : Editor)
    (ask_for_exit : Bool) (answers : Nat → Option String)
    (fnames : List String) : Int × List String :=
  Editor.edit_files_go callRet ed ask_for_exit answers 0 fnames

/-! ## `abipy.tools.iotools.ExitStackWithFiles` -/

/-- `abipy.tools.iotools.ExitStackWithFiles`: the `files` list holds every
argument ever passed to `enter_context` (`None` included); `callbacks`
holds the objects registered with the underlying `contextlib.ExitStack`
(entering a context is modelled as returning the object itself). -/
structure ExitStackWithFiles (α : Type) where
  files : List (Option α)
  callbacks : List α
deriving DecidableEq, Repr

/-- `ExitStackWithFiles.__init__`: empty `files`, empty exit stack. -/
def ExitStackWithFiles.empty (α : Type) : ExitStackWithFiles α := ⟨[], []⟩

/-- `ExitStackWithFiles.enter_context`: always append the argument to
`files`; when it is not `None`, also register it with the underlying
`ExitStack` and return the entered context, otherwise fall through and
return `None`. -/
def ExitStackWithFiles.enter_context {α : Type} (st : ExitStackWithFiles α)
    (myfile : Option α) : ExitStackWithFiles α × Option α :=
  let st1 : ExitStackWithFiles α := ⟨st.files ++ [myfile], st.callbacks⟩
  match myfile with
  | some f => (⟨st1.files, st1.callbacks ++ [f]⟩, some f)
  | none => (st1, none)

/-- `ExitStackWithFiles.__getitem__` (delegates to the `files` list). -/
def ExitStackWithFiles.getItem {α : Type} (st : ExitStackWithFiles α)
    (i : Nat) : Option (Option α) :=
  st.files.get? i

/-- Folding `enter_context` over a list of arguments. -/
def ExitStackWithFiles.enterAll {α : Type} (st : ExitStackWithFiles α)
    (xs : List (Option α)) : ExitStackWithFiles α :=
  xs.foldl (fun s x => (s.enter_context x).1) st

/-! ## Task manager (spec-modelled)

The implementation of `abipy.flowtk.tasks` (`TaskManager`, `QueueAdapter`,
`TaskPolicy`, `ParalHints`, `ParalHintsParser`) is not part of this
excerpt; only its test `abipy/flowtk/tests/test_tasks.py` is.  The
definitions below are therefore modelled from the spec: a manager record
with nested queue/limits/hardware/job sub-records, parsed from YAML, with
core/process/thread counts implied by its `limits` and default `policy`
(no autoparal override means one MPI process per minimum-core limit and
one thread). -/

/-- Modelled from the spec: the `queue` sub-record of a queue adapter
(queue type, queue name, queue parameters). -/
structure QueueSpec where
  qtype : String
  qname : String
  qparams : List (String × String)
deriving DecidableEq, Repr

/-- Modelled from the spec: the `limits` sub-record of a queue adapter. -/
structure Limits where
  timelimit : String
  min_cores : Nat
  max_cores : Nat
deriving DecidableEq, Repr

/-- Modelled from the spec: the `hardware` sub-record of a queue
adapter. -/
structure Hardware where
  num_nodes : Nat
  sockets_per_node : Nat
  cores_per_socket : Nat
  mem_per_node : String
deriving DecidableEq, Repr

/-- Modelled from the spec: the `job` sub-record of a queue adapter
(environment modules, shell environment, MPI runner). -/
structure Job where
  modules : List String
  shell_env : List (String × String)
  mpi_runner : String
deriving DecidableEq, Repr

/-- Modelled from the spec: one queue adapter — a description of how to
submit work to one HPC batch-queue system (type, limits, hardware, job
environment).  A shell manager has no queue (`queue = none`). -/
structure QAdapter where
  priority : Nat
  queue : Option QueueSpec
  limits : Limits
  hardware : Hardware
  job : Job
deriving DecidableEq, Repr

/-- Modelled from the spec: the `policy` record; only the `autoparal`
flag is visible here, defaulting to `0` when the YAML has no `policy`
section. -/
structure TaskPolicy where
  autoparal : Nat
deriving DecidableEq, Repr

/-- Modelled from the spec: `TaskManager` — a policy plus the list of
queue adapters, together with the currently selected MPI process and
OpenMP thread counts. -/
structure TaskManager where
  policy : TaskPolicy
  qads : List QAdapter
  mpi_procs : Nat
  omp_threads : Nat
deriving DecidableEq, Repr

/-- Modelled from the spec: the result of `TaskManager.from_string` after
the YAML document has been decomposed into its declarative records.  With
no autoparal override the manager uses one MPI process per minimum-core
limit of its (first) queue adapter and one thread. -/
def TaskManager.from_parsed_yaml (policy : TaskPolicy) (qads : List QAdapter) :
    TaskManager :=
  { policy := policy
    qads := qads
    mpi_procs := ((qads.head?).map (fun q => q.limits.min_cores)).getD 1
    omp_threads := 1 }

/-- Modelled from the spec: `num_cores` is the product of the MPI process
count and the OpenMP thread count. -/
def TaskManager.num_cores (m : TaskManager) : Nat :=
  m.mpi_procs * m.omp_threads

/-- Modelled from the spec: the manager has a queue when its (first)
queue adapter submits to a batch queue rather than to the shell. -/
def TaskManager.has_queue (m : TaskManager) : Bool :=
  match m.qads.head? with
  | some q => q.queue.isSome
  | none => false

/-- Modelled from the spec: `TaskManager.to_shell_manager` — derive a new
manager with the explicitly given process count, a single thread, and no
queue, inheriting the rest of the configuration; the original manager
value is not modified. -/
def TaskManager.to_shell_manager (m : TaskManager) (mpi_procs : Nat) :
    TaskManager :=
  { policy := m.policy
    qads := m.qads.map (fun q => { q with queue := none })
    mpi_procs := mpi_procs
    omp_threads := 1 }

/-- Modelled from the spec: `TaskManager.new_with_fixed_mpi_omp` — fix the
process and thread counts, disable autoparal, and propagate the product
(processes × threads) as the new minimum-and-maximum core limit on every
contained queue adapter. -/
def TaskManager.new_with_fixed_mpi_omp (m : TaskManager)
    (mpi_procs omp_threads : Nat) : TaskManager :=
  let nc := mpi_procs * omp_threads
  { policy := { autoparal := 0 }
    qads := m.qads.map (fun q =>
      { q with limits := { q.limits with min_cores := nc, max_cores := nc } })
    mpi_procs := mpi_procs
    omp_threads := omp_threads }

/-- The sample queue adapter transcribed from the `MANAGER` YAML string of
`TaskManagerTest` in `abipy/flowtk/tests/test_tasks.py`. -/
def sampleQAdapter : QAdapter :=
  { priority := 1
    queue := some
      { qtype := "slurm"
        qname := "Oban"
        qparams := [("mail_user", "nobody@nowhere")] }
    limits :=
      { timelimit := "0:20:00"
        min_cores := 4
        max_cores := 12 }
    hardware :=
      { num_nodes := 10
        sockets_per_node := 1
        cores_per_socket := 2
        mem_per_node := "4 Gb" }
    job :=
      { modules := ["intel/compilerpro/13.0.1.117", "fftw3/intel/3.3"]
        shell_env :=
          [("PATH", "/home/user/tmp_intel13/src/98_main/:/home/user//NAPS/intel13/bin:$PATH"),
           ("LD_LIBRARY_PATH", "/home/user/NAPS/intel13/lib:$LD_LIBRARY_PATH")]
        mpi_runner := "mpirun" } }

/-- The manager obtained by `TaskManager.from_string(MANAGER)`: the
`policy` section of the sample YAML is commented out, so the default
policy (autoparal 0) applies, and the single queue adapter is
`sampleQAdapter`. -/
def sampleManager : TaskManager :=
  TaskManager.from_parsed_yaml { autoparal := 0 } [sampleQAdapter]

/-! ## Dictionary serialization (spec-modelled)

The spec's "generic dictionary serialization for equality checks"
(MSONable `as_dict` / `from_dict`): values of a JSON-like dictionary
tree. -/

/-- Modelled from the spec: a value of the generic dictionary
serialization (a JSON-like tree of strings, naturals, nulls, arrays and
string-keyed dictionaries). -/
inductive DictVal where
  | str (s : String)
  | nat (n : Nat)
  | null
  | arr (xs : List DictVal)
  | dict (kvs : List (String × DictVal))
deriving Repr

/-- Look a key up in a dictionary value. -/
def DictVal.find (d : DictVal) (key : String) : Option DictVal :=
  match d with
  | DictVal.dict kvs => kvs.lookup key
  | _ => none

/-- Extract a string leaf. -/
def DictVal.asStr : DictVal → Option String
  | DictVal.str s => some s
  | _ => none

/-- Extract a natural-number leaf. -/
def DictVal.asNat : DictVal → Option Nat
  | DictVal.nat n => some n
  | _ => none

/-- Serialize a string-to-string mapping. -/
def strDictOf (kvs : List (String × String)) : DictVal :=
  DictVal.dict (kvs.map (fun kv => (kv.1, DictVal.str kv.2)))

/-- Parse a string-to-string mapping back. -/
def DictVal.asStrDict : DictVal → Option (List (String × String))
  | DictVal.dict kvs => kvs.mapM (fun kv => (kv.2.asStr).map (fun s => (kv.1, s)))
  | _ => none

/-- Serialize a list of strings. -/
def strArrOf (xs : List String) : DictVal :=
  DictVal.arr (xs.map DictVal.str)

/-- Parse a list of strings back. -/
def DictVal.asStrArr : DictVal → Option (List String)
  | DictVal.arr xs => xs.mapM DictVal.asStr
  | _ => none

/-- Modelled from the spec: `as_dict` on the queue sub-record. -/
def QueueSpec.as_dict (q : QueueSpec) : DictVal :=
  DictVal.dict
    [("qtype", DictVal.str q.qtype),
     ("qname", DictVal.str q.qname),
     ("qparams", strDictOf q.qparams)]

/-- Modelled from the spec: `from_dict` on the queue sub-record. -/
def QueueSpec.from_dict (d : DictVal) : Option QueueSpec := do
  let qtype ← (← d.find "qtype").asStr
  let qname ← (← d.find "qname").asStr
  let qparams ← (← d.find "qparams").asStrDict
  pure { qtype := qtype, qname := qname, qparams := qparams }

/-- Modelled from the spec: `as_dict` on the limits sub-record. -/
def Limits.as_dict (l : Limits) : DictVal :=
  DictVal.dict
    [("timelimit", DictVal.str l.timelimit),
     ("min_cores", DictVal.nat l.min_cores),
     ("max_cores", DictVal.nat l.max_cores)]

/-- Modelled from the spec: `from_dict` on the limits sub-record. -/
def Limits.from_dict (d : DictVal) : Option Limits := do
  let timelimit ← (← d.find "timelimit").asStr
  let min_cores ← (← d.find "min_cores").asNat
  let max_cores ← (← d.find "max_cores").asNat
  pure { timelimit := timelimit, min_cores := min_cores, max_cores := max_cores }

/-- Modelled from the spec: `as_dict` on the hardware sub-record. -/
def Hardware.as_dict (h : Hardware) : DictVal :=
  DictVal.dict
    [("num_nodes", DictVal.nat h.num_nodes),
     ("sockets_per_node", DictVal.nat h.sockets_per_node),
     ("cores_per_socket", DictVal.nat h.cores_per_socket),
     ("mem_per_node", DictVal.str h.mem_per_node)]

/-- Modelled from the spec: `from_dict` on the hardware sub-record. -/
def Hardware.from_dict (d : DictVal) : Option Hardware := do
  let num_nodes ← (← d.find "num_nodes").asNat
  let sockets_per_node ← (← d.find "sockets_per_node").asNat
  let cores_per_socket ← (← d.find "cores_per_socket").asNat
  let mem_per_node ← (← d.find "mem_per_node").asStr
  pure { num_nodes := num_nodes, sockets_per_node := sockets_per_node,
         cores_per_socket := cores_per_socket, mem_per_node := mem_per_node }

/-- Modelled from the spec: `as_dict` on the job sub-record. -/
def Job.as_dict (j : Job) : DictVal :=
  DictVal.dict
    [("modules", strArrOf j.modules),
     ("shell_env", strDictOf j.shell_env),
     ("mpi_runner", DictVal.str j.mpi_runner)]

/-- Modelled from the spec: `from_dict` on the job sub-record. -/
def Job.from_dict (d : DictVal) : Option Job := do
  let modules ← (← d.find "modules").asStrArr
  let shell_env ← (← d.find "shell_env").asStrDict
  let mpi_runner ← (← d.find "mpi_runner").asStr
  pure { modules := modules, shell_env := shell_env, mpi_runner := mpi_runner }

/-- Modelled from the spec: `as_dict` on one queue adapter; a missing
queue serializes as null. -/
def QAdapter.as_dict (q : QAdapter) : DictVal :=
  DictVal.dict
    [("priority", DictVal.nat q.priority),
     ("queue", match q.queue with
               | some qs => qs.as_dict
               | none => DictVal.null),
     ("limits", q.limits.as_dict),
     ("hardware", q.hardware.as_dict),
     ("job", q.job.as_dict)]

/-- Modelled from the spec: `from_dict` on one queue adapter. -/
def QAdapter.from_dict (d : DictVal) : Option QAdapter := do
  let priority ← (← d.find "priority").asNat
  let queued ← d.find "queue"
  let queue ← match queued with
              | DictVal.null => pure (Option.none (α := QueueSpec))
              | dq => (QueueSpec.from_dict dq).map Option.some
  let limits ← Limits.from_dict (← d.find "limits")
  let hardware ← Hardware.from_dict (← d.find "hardware")
  let job ← Job.from_dict (← d.find "job")
  pure { priority := priority, queue := queue, limits := limits,
         hardware := hardware, job := job }

/-- Modelled from the spec: `as_dict` on the whole manager. -/
def TaskManager.as_dict (m : TaskManager) : DictVal :=
  DictVal.dict
    [("policy", DictVal.dict [("autoparal", DictVal.nat m.policy.autoparal)]),
     ("qadapters", DictVal.arr (m.qads.map QAdapter.as_dict)),
     ("mpi_procs", DictVal.nat m.mpi_procs),
     ("omp_threads", DictVal.nat m.omp_threads)]

/-- Modelled from the spec: `from_dict` on the whole manager. -/
def TaskManager.from_dict (d : DictVal) : Option TaskManager := do
  let autoparal ← (← (← d.find "policy").find "autoparal").asNat
  let qadsd ← d.find "qadapters"
  let qads ← match qadsd with
             | DictVal.arr xs => xs.mapM QAdapter.from_dict
             | _ => Option.none
  let mpi_procs ← (← d.find "mpi_procs").asNat
  let omp_threads ← (← d.find "omp_threads").asNat
  pure { policy := { autoparal := autoparal }, qads := qads,
         mpi_procs := mpi_procs, omp_threads := omp_threads }

/-! ## Autoparal configurations (spec-modelled)

`ParalHints` / `ParalHintsParser` are likewise not part of the excerpt.
Per the spec, a parsed Autoparal document is a list of numeric
configuration samples with fields `tot_ncpus`, `mpi_ncpus`,
`efficiency`, `mem_per_cpu` and a mapping of solver-specific integer
variables, exposing trivial reductions (max value across samples).  The
decimal numbers of the document are embedded as exact rationals. -/

/-- Modelled from the spec: one autoparal configuration sample. -/
structure ParalConf where
  tot_ncpus : Nat
  mpi_ncpus : Nat
  efficiency : ℚ
  mem_per_cpu : ℚ
  vars : List (String × Nat)
deriving DecidableEq, Repr

/-- Modelled from the spec: the speedup of a sample is its efficiency
times its total CPU count. -/
def ParalConf.speedup (c : ParalConf) : ℚ :=
  c.efficiency * (c.tot_ncpus : ℚ)

/-- Modelled from the spec: the `info` header of an Autoparal document. -/
structure ParalInfo where
  autoparal : Nat
  max_ncpus : Nat
  nkpt : Nat
  nsppol : Nat
  nspinor : Nat
  nbnds : Nat
deriving DecidableEq, Repr

/-- Modelled from the spec: the result of `ParalHintsParser().parse` — an
`info` header plus the list of configuration samples. -/
structure ParalHints where
  info : ParalInfo
  confs : List ParalConf
deriving DecidableEq, Repr

/-- Modelled from the spec: maximum total CPU count across samples. -/
def ParalHints.max_cores (h : ParalHints) : Nat :=
  (h.confs.map (fun c => c.tot_ncpus)).foldl max 0

/-- Modelled from the spec: maximum memory per process across samples. -/
def ParalHints.max_mem_per_proc (h : ParalHints) : ℚ :=
  (h.confs.map (fun c => c.mem_per_cpu)).foldl max 0

/-- Modelled from the spec: maximum speedup (efficiency × total CPUs)
across samples. -/
def ParalHints.max_speedup (h : ParalHints) : ℚ :=
  (h.confs.map ParalConf.speedup).foldl max 0

/-- Modelled from the spec: maximum efficiency across samples. -/
def ParalHints.max_efficiency (h : ParalHints) : ℚ :=
  (h.confs.map (fun c => c.efficiency)).foldl max 0

/-- The five-configuration Autoparal document of `ParalHintsTest`,
transcribed from `abipy/flowtk/tests/test_tasks.py`. -/
def sampleParalHints : ParalHints :=
  { info :=
      { autoparal := 1, max_ncpus := 4, nkpt := 6, nsppol := 1,
        nspinor := 1, nbnds := 10 }
    confs :=
      [{ tot_ncpus := 1, mpi_ncpus := 1, efficiency := 1,
         mem_per_cpu := 11.54, vars := [("npfft", 1), ("npkpt", 1)] },
       { tot_ncpus := 2, mpi_ncpus := 2, efficiency := 1,
         mem_per_cpu := 7.42, vars := [("npfft", 1), ("npkpt", 2)] },
       { tot_ncpus := 2, mpi_ncpus := 2, efficiency := 0.1,
         mem_per_cpu := 9.42, vars := [("npfft", 2), ("npkpt", 1)] },
       { tot_ncpus := 3, mpi_ncpus := 3, efficiency := 0.833333333,
         mem_per_cpu := 6.60, vars := [("npfft", 3), ("npkpt", 1)] },
       { tot_ncpus := 4, mpi_ncpus := 4, efficiency := 0.833333333,
         mem_per_cpu := 15.77, vars := [("npfft", 2), ("npkpt", 2)] }] }

/-! ## Claims about the task manager -/

/-- Claim C1: parsing the sample manager YAML (limits `min_cores: 4`,
`max_cores: 12`, no `policy` section) yields a manager with
`num_cores == 4`, `mpi_procs == 4` and `omp_threads == 1`: with no
autoparal override the manager uses one MPI process per minimum-core
limit and one thread. -/
theorem C1_sample_manager_counts :
    sampleManager.num_cores = 4 ∧ sampleManager.mpi_procs = 4 ∧
      sampleManager.omp_threads = 1 := by
  decide

/-- Claim C2: `to_shell_manager(mpi_procs=1)` on the sample manager
returns a manager with `mpi_procs == 1`, `num_cores == 1` and no queue,
and the original manager value still has `num_cores == 4` afterwards. -/
theorem C2_to_shell_manager :
    (sampleManager.to_shell_manager 1).mpi_procs = 1 ∧
    (sampleManager.to_shell_manager 1).num_cores = 1 ∧
    (sampleManager.to_shell_manager 1).has_queue = false ∧
    sampleManager.num_cores = 4 := by
  decide

/-- Claim C3: serializing the manager parsed from the sample YAML to a
dictionary and deserializing it back yields an object equal to the
original (the MSONable round trip). -/
theorem C3_as_dict_from_dict_roundtrip :
    TaskManager.from_dict sampleManager.as_dict = some sampleManager := by
  rfl

/-- Claim C4: `new_with_fixed_mpi_omp(mpi_procs=5, omp_threads=2)` on the
sample manager returns a manager whose `num_cores` equals the product
5 × 2 = 10 and in which every contained queue adapter (here the single
one, listed exhaustively) has `min_cores` and `max_cores` equal to 10. -/
theorem C4_new_with_fixed_mpi_omp :
    (sampleManager.new_with_fixed_mpi_omp 5 2).num_cores = 10 ∧
    (sampleManager.new_with_fixed_mpi_omp 5 2).mpi_procs = 5 ∧
    (sampleManager.new_with_fixed_mpi_omp 5 2).policy.autoparal = 0 ∧
    ((sampleManager.new_with_fixed_mpi_omp 5 2).qads.map
        (fun q => (q.limits.min_cores, q.limits.max_cores))) = [(10, 10)] := by
  decide

/-- Claim C5: parsing the sample five-configuration Autoparal document
yields `max_cores = 4`, `max_mem_per_proc = 15.77`,
`max_speedup = 3.333333332` (the maximum of efficiency × tot_ncpus over
the samples) and `max_efficiency = 1.0`. -/
theorem C5_paral_hints_maxima :
    sampleParalHints.max_cores = 4 ∧
    sampleParalHints.max_mem_per_proc = 15.77 ∧
    sampleParalHints.max_speedup = 3.333333332 ∧
    sampleParalHints.max_efficiency = 1.0 := by
  refine ⟨by decide, ?_, ?_, ?_⟩ <;>
    norm_num [ParalHints.max_mem_per_proc, ParalHints.max_speedup,
      ParalHints.max_efficiency, sampleParalHints, ParalConf.speedup,
      List.foldl]

/-! ## Claims about `ask_yes_no` -/

/-- Claim C6, counterexample: the claim says `ask_yes_no` never returns
while the lowercased input is not one of `y`/`yes`/`n`/`no`.  But an
empty input line (whose lowercasing, the empty string, is none of the
four answers) is replaced by the default, so with `default='y'` the call
returns `True` on the very first, unrecognized, input line. -/
theorem C6_empty_line_returns_default :
    answersLookup (lowerStr "") = none ∧
    ask_yes_no (some "y") [InEvent.line ""] = AskResult.ret true := by
  decide

/-- Claim C6, amended: `ask_yes_no` does not return while the lowercased
input is nonempty and not one of `y`/`yes`/`n`/`no` (an empty input line
is instead replaced by the configured default); and when the input raises
`EOFError` while the configured default is not one of the recognized
answers (including `default=None`), `ask_yes_no` raises instead of
looping. -/
theorem C6_reprompts_and_raises (default : Option String) :
    (∀ inputs : List String,
       (∀ s ∈ inputs, lowerStr s ≠ "" ∧ answersLookup (lowerStr s) = none) →
       ask_yes_no default (inputs.map InEvent.line) = AskResult.pending) ∧
    (∀ rest : List InEvent, defaultRecognized default = false →
       ask_yes_no default (InEvent.eof :: rest) = AskResult.raised) := by
  constructor
  · intro inputs h1
    induction inputs with
    | nil => rfl
    | cons s ss ih =>
      obtain ⟨hne, hlk⟩ := h1 s (List.mem_cons_self s ss)
      have ih2 := ih (fun t ht => h1 t (List.mem_cons_of_mem s ht))
      simp only [List.map_cons, ask_yes_no, if_neg hne, hlk]
      exact ih2
  · intro rest h2
    cases default with
    | none => rfl
    | some d =>
      have hd : answersLookup d = none := by
        cases hcase : answersLookup d with
        | none => rfl
        | some b => simp [defaultRecognized, hcase] at h2
      simp only [ask_yes_no, hd]

/-- Witness for the amended claim C6: even with a recognized default
(`default='y'`) the single nonempty unrecognized input line `maybe` keeps
the loop pending, and with `default=None` an immediate end-of-file
raises. -/
theorem C6_reprompts_and_raises_witness :
    ask_yes_no (some "y") (["maybe"].map InEvent.line) = AskResult.pending ∧
    ask_yes_no none (InEvent.eof :: []) = AskResult.raised :=
  ⟨(C6_reprompts_and_raises (some "y")).1 ["maybe"] (by decide),
   (C6_reprompts_and_raises none).2 [] (by decide)⟩

/-! ## Claims about `Editor` and `ExitStackWithFiles` -/

/-- Claim C7: whenever the invoked editor process exits with a non-zero
return code, `Editor.edit_file` prints a warning and returns that
non-zero return code to the caller (the function is total in the
embedding: it never raises on editor failure). -/
theorem C7_edit_file_nonzero_warns (callRet : String → String → Int)
    (ed : Editor) (fname : String) (h : callRet ed.editor fname ≠ 0) :
    (ed.edit_file callRet fname).retcode = callRet ed.editor fname ∧
    (ed.edit_file callRet fname).warnings ≠ [] := by
  unfold Editor.edit_file
  simp [h]

/-- Witness for claim C7 at a concrete failing editor invocation. -/
theorem C7_edit_file_nonzero_warns_witness :
    ((fun _ _ => (2 : Int)) (Editor.mk "vi").editor "f" ≠ 0) ∧
    ((Editor.mk "vi").edit_file (fun _ _ => (2 : Int)) "f").retcode
        = (fun _ _ => (2 : Int)) (Editor.mk "vi").editor "f" ∧
    ((Editor.mk "vi").edit_file (fun _ _ => (2 : Int)) "f").warnings ≠ [] :=
  ⟨by decide,
   C7_edit_file_nonzero_warns (fun _ _ => (2 : Int)) (Editor.mk "vi") "f"
     (by decide)⟩

/-- Claim C8: an `Editor` constructed with `editor=None` uses the
`EDITOR` environment variable as the editor name, falling back to the
default `vi` when the variable is unset, and `edit_file` invokes the
named external process on the file and returns the process's exit
status. -/
theorem C8_editor_name_and_exit_status :
    (∀ e : String, (Editor.init none (some e)).editor = e) ∧
    (Editor.init none none).editor = "vi" ∧
    (∀ (callRet : String → String → Int) (ed : Editor) (fname : String),
      (ed.edit_file callRet fname).retcode = callRet ed.editor fname) :=
  ⟨fun _ => rfl, rfl, fun _ _ _ => rfl⟩

/-- Folding `enter_context` appends all the entered arguments, in order,
to the `files` list. -/
theorem ExitStackWithFiles.enterAll_files {α : Type}
    (st : ExitStackWithFiles α) (xs : List (Option α)) :
    (st.enterAll xs).files = st.files ++ xs := by
  induction xs generalizing st with
  | nil => simp [ExitStackWithFiles.enterAll]
  | cons x xs ih =>
    have hstep : ExitStackWithFiles.enterAll st (x :: xs)
        = ExitStackWithFiles.enterAll (st.enter_context x).1 xs := rfl
    rw [hstep, ih]
    cases x <;> simp [ExitStackWithFiles.enter_context]

/-- Claim C9: `enter_context` appends its argument to the `files` list on
every call, `None` included; it registers the exit callback and returns
the entered context only when the argument is not `None` (returning
`None` otherwise); and iterating or indexing over the stack yields all
entered objects, `None` included, in insertion order. -/
theorem C9_enter_context_files (α : Type) :
    (∀ (st : ExitStackWithFiles α) (x : Option α),
        ((st.enter_context x).1).files = st.files ++ [x]) ∧
    (∀ (st : ExitStackWithFiles α) (f : α),
        st.enter_context (some f)
          = (⟨st.files ++ [some f], st.callbacks ++ [f]⟩, some f)) ∧
    (∀ st : ExitStackWithFiles α,
        st.enter_context none = (⟨st.files ++ [none], st.callbacks⟩, none)) ∧
    (∀ xs : List (Option α),
        ((ExitStackWithFiles.empty α).enterAll xs).files = xs) ∧
    (∀ (xs : List (Option α)) (i : Nat),
        ((ExitStackWithFiles.empty α).enterAll xs).getItem i = xs.get? i) := by
  refine ⟨fun st x => ?_, fun st f => rfl, fun st => rfl, fun xs => ?_, fun xs i => ?_⟩
  · cases x <;> rfl
  · rw [ExitStackWithFiles.enterAll_files]; rfl
  · unfold ExitStackWithFiles.getItem
    rw [ExitStackWithFiles.enterAll_files]
    rfl

/-- When every file's editor invocation succeeds, `edit_files` returns 0
from any prompt index, whatever the user answers at the prompts. -/
theorem Editor.edit_files_go_all_zero (callRet : String → String → Int)
    (ed : Editor) (ask_for_exit : Bool) (answers : Nat → Option String)
    (fnames : List String) :
    (∀ f ∈ fnames, callRet ed.editor f = 0) → ∀ k,
      (Editor.edit_files_go callRet ed ask_for_exit answers k fnames).1 = 0 := by
  induction fnames with
  | nil => intro _ k; rfl
  | cons f rest ih =>
    intro h k
    have hf : callRet ed.editor f = 0 := h f (List.mem_cons_self f rest)
    have hrest : ∀ g ∈ rest, callRet ed.editor g = 0 :=
      fun g hg => h g (List.mem_cons_of_mem f hg)
    simp only [Editor.edit_files_go, Editor.edit_file, hf]
    norm_num
    split
    · split
      · rfl
      · exact ih hrest (k + 1)
    · exact ih hrest k

/-- When every file before `f` succeeds, `f` fails, and the user always
answers "continue" at the prompts, `edit_files` returns `f`'s exit status
having invoked the editor exactly on the files up to and including `f`. -/
theorem Editor.edit_files_go_first_failure (callRet : String → String → Int)
    (ed : Editor) (ask_for_exit : Bool) (answers : Nat → Option String)
    (f : String) (post : List String) (pre : List String) :
    (∀ g ∈ pre, callRet ed.editor g = 0) → callRet ed.editor f ≠ 0 →
    (∀ n, _user_wants_to_exit (answers n) = false) → ∀ k,
      Editor.edit_files_go callRet ed ask_for_exit answers k (pre ++ f :: post)
        = (callRet ed.editor f, pre ++ [f]) := by
  induction pre with
  | nil =>
    intro _ hf _ k
    simp only [List.nil_append, Editor.edit_files_go, Editor.edit_file]
    simp [hf]
  | cons g pre ih =>
    intro h hf hcont k
    have hg : callRet ed.editor g = 0 := h g (List.mem_cons_self g pre)
    have hpre : ∀ x ∈ pre, callRet ed.editor x = 0 :=
      fun x hx => h x (List.mem_cons_of_mem g hx)
    simp only [List.cons_append, Editor.edit_files_go, Editor.edit_file, hg]
    norm_num
    split
    · rw [hcont k]
      simp only [Bool.false_eq_true, if_false]
      rw [ih hpre hf hcont (k + 1)]
    · rw [ih hpre hf hcont k]

/-- When the user answers "no" at the first continue prompt, `edit_files`
stops after the first (successful) file and returns 0, whatever the later
files would do. -/
theorem Editor.edit_files_stop_early (callRet : String → String → Int)
    (ed : Editor) (answers : Nat → Option String) (f : String)
    (rest : List String) (hne : rest ≠ []) (hf : callRet ed.editor f = 0)
    (hstop : _user_wants_to_exit (answers 0) = true) :
    Editor.edit_files callRet ed true answers (f :: rest) = (0, [f]) := by
  unfold Editor.edit_files
  simp only [Editor.edit_files_go, Editor.edit_file, hf]
  simp [hne, hstop]

/-- Claim C10: `Editor.edit_files` returns 0 when every per-file editor
invocation returns 0 (the user stopping early at the continue prompt also
yields 0), and otherwise returns the exit status of the first file whose
edit fails, without invoking the editor on any later file (the second
component of the result lists the files the editor was invoked on). -/
theorem C10_edit_files_behaviour :
    (∀ (callRet : String → String → Int) (ed : Editor) (ask_for_exit : Bool)
       (answers : Nat → Option String) (fnames : List String),
       (∀ f ∈ fnames, callRet ed.editor f = 0) →
       (Editor.edit_files callRet ed ask_for_exit answers fnames).1 = 0) ∧
    (∀ (callRet : String → String → Int) (ed : Editor) (ask_for_exit : Bool)
       (answers : Nat → Option String) (pre : List String) (f : String)
       (post : List String),
       (∀ g ∈ pre, callRet ed.editor g = 0) → callRet ed.editor f ≠ 0 →
       (∀ n, _user_wants_to_exit (answers n) = false) →
       Editor.edit_files callRet ed ask_for_exit answers (pre ++ f :: post)
         = (callRet ed.editor f, pre ++ [f])) ∧
    (∀ (callRet : String → String → Int) (ed : Editor)
       (answers : Nat → Option String) (f : String) (rest : List String),
       rest ≠ [] → callRet ed.editor f = 0 →
       _user_wants_to_exit (answers 0) = true →
       Editor.edit_files callRet ed true answers (f :: rest) = (0, [f])) :=
  ⟨fun callRet ed ask_for_exit answers fnames h =>
     Editor.edit_files_go_all_zero callRet ed ask_for_exit answers fnames h 0,
   fun callRet ed ask_for_exit answers pre f post h hf hcont =>
     Editor.edit_files_go_first_failure callRet ed ask_for_exit answers
       f post pre h hf hcont 0,
   fun callRet ed answers f rest hne hf hstop =>
     Editor.edit_files_stop_early callRet ed answers f rest hne hf hstop⟩

/-- Witness for claim C10: with an editor that fails exactly on the file
named `bad`, editing `[a, c]` returns 0; editing `[a, bad, c]` with a
user who always continues returns `bad`'s status 1 after invoking the
editor on `a` and `bad` only; and a user answering `no` at the first
prompt stops after `a` with status 0 even though `bad` follows. -/
theorem C10_edit_files_behaviour_witness :
    (Editor.edit_files (fun _ g => if g = "bad" then (1 : Int) else 0)
        (Editor.mk "vi") true (fun _ => some "y") ["a", "c"]).1 = 0 ∧
    Editor.edit_files (fun _ g => if g = "bad" then (1 : Int) else 0)
        (Editor.mk "vi") true (fun _ => some "y") (["a"] ++ "bad" :: ["c"])
      = ((fun _ g => if g = "bad" then (1 : Int) else 0)
           (Editor.mk "vi").editor "bad", ["a"] ++ ["bad"]) ∧
    Editor.edit_files (fun _ g => if g = "bad" then (1 : Int) else 0)
        (Editor.mk "vi") true (fun _ => some "no") ("a" :: ["bad"])
      = (0, ["a"]) :=
  ⟨C10_edit_files_behaviour.1 (fun _ g => if g = "bad" then (1 : Int) else 0)
     (Editor.mk "vi") true (fun _ => some "y") ["a", "c"] (by decide),
   C10_edit_files_behaviour.2.1
     (fun _ g => if g = "bad" then (1 : Int) else 0) (Editor.mk "vi") true
     (fun _ => some "y") ["a"] "bad" ["c"] (by decide) (by decide)
     (fun _ => rfl),
   C10_edit_files_behaviour.2.2
     (fun _ g => if g = "bad" then (1 : Int) else 0) (Editor.mk "vi")
     (fun _ => some "no") "a" ["bad"] (by decide) (by decide) (by decide)⟩
